import Mathlib

/-!
Shallow embedding of the td-blog-engine SEO scoring engine and optimization
loop (src/scoring.py, src/optimizer.py, src/config.py), together with
theorems settling the frozen claims about the natural-language specification.

Modelling conventions:
* Python floats are modelled as rationals (ℚ); all the constants involved are
  decimal literals, so the arithmetic structure is preserved exactly.
* Python strings are modelled as Lean `String`; the string primitives used by
  the source (`str.strip`, `str.split`, `str.lower`, `str.startswith`,
  substring containment `in`, …) are re-implemented below on `List Char` so
  that every definition is executable by the kernel.
* Calls into the external regular-expression library (`re.search` on a
  general pattern) are modelled by an explicit environment `REnv` carrying the
  match oracle; literal-string regex uses (`re.escape`d find-all, character
  class substitution, the sentence splitter, the markdown link pattern) are
  implemented concretely, following the source's patterns.
* The structured-preamble parser (`parse_frontmatter`) is, per the spec's §1,
  an external collaborator: the scoring engine is embedded at the Document
  level (preamble mapping + body).  The preamble mapping is modelled twice:
  a typed mapping `FM` (string keys to string values) for the main
  development, and a dynamically-typed `PyVal` fragment used to analyse the
  behaviour of the source on non-string preamble values.
-/

set_option maxRecDepth 4000

/-! ## Python string primitives -/

/-- Python `str.split()` with no separator: split on whitespace runs,
dropping empty pieces. -/
def pySplit (s : String) : List String :=
  ((s.data.splitOnP Char.isWhitespace).filter (fun w => w ≠ [])).map
    (fun w => String.mk w)

/-- Python `str.strip()`: drop leading and trailing whitespace. -/
def pyStrip (s : String) : String :=
  String.mk (((s.data.dropWhile Char.isWhitespace).reverse.dropWhile
    Char.isWhitespace).reverse)

/-- Python `str.lower()` (ASCII case mapping suffices for this content). -/
def pyLower (s : String) : String :=
  String.mk (s.data.map Char.toLower)

/-- Python `str.startswith(pre)`. -/
def pyStartsWith (s pre : String) : Bool :=
  pre.data.isPrefixOf s.data

/-- `needle` occurs as a contiguous sublist of the second list. -/
def listIsInfix (needle : List Char) : List Char → Bool
  | [] => needle.isEmpty
  | c :: rest => needle.isPrefixOf (c :: rest) || listIsInfix needle rest

/-- Python substring containment `needle in haystack`. -/
def pyContains (haystack needle : String) : Bool :=
  listIsInfix needle.data haystack.data

/-- Python `s.split("\n")` (keeps empty pieces). -/
def pyLines (s : String) : List String :=
  (s.data.splitOn '\n').map (fun w => String.mk w)

/-- Python `len(s)` on a string: number of characters. -/
def pyLen (s : String) : ℕ := s.data.length

/-- Python `"sep".join(xs)`. -/
def pyJoin (sep : String) (xs : List String) : String :=
  String.intercalate sep xs

/-- Python `s[n:]` (drop the first `n` characters). -/
def pyDropChars (s : String) (n : ℕ) : String :=
  String.mk (s.data.drop n)

/-- Number of non-overlapping occurrences of a nonempty literal pattern,
leftmost-first — the semantics of `len(re.findall(re.escape(pat), s))`
for nonempty `pat`.  The `fuel` argument makes the recursion structural
(so the kernel can evaluate it); every call site passes the length of the
scanned list, which always suffices because each step consumes at least
one character. -/
def countOccsAux (pat : List Char) : ℕ → List Char → ℕ
  | 0, _ => 0
  | _, [] => 0
  | fuel + 1, c :: rest =>
    if pat.isPrefixOf (c :: rest) then
      1 + countOccsAux pat fuel ((c :: rest).drop pat.length)
    else
      countOccsAux pat fuel rest

/-- Python `len(re.findall(re.escape(pat), s))`: for the empty pattern the
`re` module reports `len(s) + 1` matches. -/
def countOccs (pat s : String) : ℕ :=
  if pat.data = [] then s.data.length + 1
  else countOccsAux pat.data s.data.length s.data

example : countOccs "ab" "abxabab" = 3 := by decide
example : countOccs "" "abc" = 4 := by decide
example : pySplit "  a b\n c  " = ["a", "b", "c"] := by decide
example : pyStrip "  ## x \n" = "## x" := by decide
example : pyContains "hello world" "lo wo" = true := by decide
example : pyLines "a\n\nb" = ["a", "", "b"] := by decide

/-- Length of the match of the regex `https?://\S+` at the head of `cs`,
when there is one. -/
def urlMatchLen (cs : List Char) : Option ℕ :=
  let tryPre : List Char → Option ℕ := fun pre =>
    if pre.isPrefixOf cs then
      let tail := (cs.drop pre.length).takeWhile (fun c => !c.isWhitespace)
      if tail = [] then none else some (pre.length + tail.length)
    else none
  match tryPre "https://".data with
  | some n => some n
  | none => tryPre "http://".data

/-- `re.sub(r'https?://\S+', '', ·)`: delete every URL, scanning leftmost-first.
Fuel is the length of the scanned list (each step consumes at least one
character, so it never runs out at the call sites below). -/
def stripURLsAux : ℕ → List Char → List Char
  | 0, cs => cs
  | _, [] => []
  | fuel + 1, c :: rest =>
    match urlMatchLen (c :: rest) with
    | some n => stripURLsAux fuel ((c :: rest).drop n)
    | none => c :: stripURLsAux fuel rest

def stripURLs (cs : List Char) : List Char := stripURLsAux cs.length cs

example : String.mk (stripURLs "see https://x.com/a then".data) = "see  then" := by
  decide

/-! ## Configuration constants (src/config.py) -/

def BUSINESS_communities : List String :=
  ["Westerville", "Dublin", "Powell", "Delaware", "Lewis Center",
   "Sunbury", "Galena", "Centerburg", "Johnstown", "New Albany",
   "Gahanna", "Reynoldsburg", "Pickerington", "Canal Winchester",
   "Grove City", "Hilliard", "Plain City"]

def word_count_weight : ℚ := 10
def word_count_target_min : ℕ := 1500
def word_count_target_max : ℕ := 2500
def word_count_hard_min : ℕ := 800
def word_count_hard_max : ℕ := 3500

def keyword_optimization_weight : ℚ := 15
def target_density_min : ℚ := 0.008
def target_density_max : ℚ := 0.02

def heading_structure_weight : ℚ := 10
def target_h2_count_min : ℕ := 3
def target_h2_count_max : ℕ := 8
def target_h3_count_min : ℕ := 2

def readability_weight : ℚ := 10
def target_avg_sentence_length_min : ℚ := 12
def target_avg_sentence_length_max : ℚ := 22
def target_avg_paragraph_sentences_min : ℚ := 2
def target_avg_paragraph_sentences_max : ℚ := 5

def local_seo_weight : ℚ := 15
def community_mention_min : ℕ := 3
def region_terms : List String :=
  ["Central Ohio", "Franklin County", "Delaware County",
   "Columbus", "Columbus metro", "I-270", "I-71",
   "Polaris", "Easton", "Short North"]

def meta_description_weight : ℚ := 10
def meta_target_length_min : ℕ := 140
def meta_target_length_max : ℕ := 160

def internal_linking_weight : ℚ := 10
def target_min_links : ℕ := 3
def target_max_links : ℕ := 8

def content_depth_weight : ℚ := 10
def target_unique_sections : ℕ := 4

def call_to_action_weight : ℚ := 5
def target_cta_count_min : ℕ := 2
def target_cta_count_max : ℕ := 4

def frontmatter_weight : ℚ := 5
def required_fields : List String :=
  ["title", "description", "date", "keywords", "author", "community", "category"]

def ITERATIONS_default_count : ℕ := 5
def ITERATIONS_max_count : ℕ := 15
def ITERATIONS_plateau_patience : ℕ := 2

/-! ## Feature extractors (src/scoring.py lines 82-127) -/

/-- The character class of `re.sub(r'[#*\[\]()>`_~]', ' ', text)` in
`count_words` (`Char.ofNat 96` is the backquote). -/
def countWordsStripChars : List Char :=
  ['#', '*', '[', ']', '(', ')', '>', Char.ofNat 96, '_', '~']

/-- `count_words` (scoring.py 82-85): blank out markup punctuation, delete
URLs, split on whitespace, count. -/
def count_words (text : String) : ℕ :=
  let clean1 := text.data.map (fun c => if countWordsStripChars.contains c then ' ' else c)
  let clean2 := stripURLs clean1
  (pySplit (String.mk clean2)).length

example : count_words "## A [b](https://z.q/w) c_d" = 4 := by decide

structure Headings where
  h1 : List String
  h2 : List String
  h3 : List String
  h4 : List String
deriving Repr, DecidableEq

/-- One line of the `extract_headings` loop (scoring.py 90-99): the line is
stripped, then classified by its `#`-marker prefix. -/
def headingUpdate (hs : Headings) (line : String) : Headings :=
  let l := pyStrip line
  if pyStartsWith l "#### " then { hs with h4 := hs.h4 ++ [pyStrip (pyDropChars l 5)] }
  else if pyStartsWith l "### " then { hs with h3 := hs.h3 ++ [pyStrip (pyDropChars l 4)] }
  else if pyStartsWith l "## " then { hs with h2 := hs.h2 ++ [pyStrip (pyDropChars l 3)] }
  else if pyStartsWith l "# " then { hs with h1 := hs.h1 ++ [pyStrip (pyDropChars l 2)] }
  else hs

/-- `extract_headings` (scoring.py 88-100). -/
def extract_headings (body : String) : Headings :=
  (pyLines body).foldl headingUpdate ⟨[], [], [], []⟩

example : extract_headings "# A\nx\n  ## B  \n#C\n##### D" = ⟨["A"], ["B"], [], []⟩ := by
  decide

/-- The character class deleted by `extract_sentences`. -/
def sentenceStripChars : List Char := ['#', '*', '>', '[', ']', '(', ')']

def isSentPunct (c : Char) : Bool := c == '.' || c == '!' || c == '?'

/-- `re.split(r'[.!?]+\s+', ·)`: split at each maximal run of sentence
punctuation that is followed by whitespace, consuming the punctuation and the
whitespace.  A punctuation run not followed by whitespace stays in the piece.
Fuel as in `stripURLsAux`. -/
def sentSplitAux : ℕ → List Char → List Char → List (List Char)
  | 0, acc, cs => [acc.reverse ++ cs]
  | _, acc, [] => [acc.reverse]
  | fuel + 1, acc, c :: rest =>
    if isSentPunct c then
      let punct := (c :: rest).takeWhile isSentPunct
      let after := (c :: rest).drop punct.length
      let ws := after.takeWhile Char.isWhitespace
      if ws = [] then sentSplitAux fuel (c :: acc) rest
      else acc.reverse :: sentSplitAux fuel [] (after.drop ws.length)
    else sentSplitAux fuel (c :: acc) rest

def sentSplit (cs : List Char) : List (List Char) := sentSplitAux cs.length [] cs

/-- `extract_sentences` (scoring.py 103-107). -/
def extract_sentences (text : String) : List String :=
  let clean1 := text.data.filter (fun c => !(sentenceStripChars.contains c))
  let clean2 := stripURLs clean1
  ((sentSplit clean2).map (fun p => pyStrip (String.mk p))).filter
    (fun s => 2 < (pySplit s).length)

example : extract_sentences "One two three. Four five!  Six seven eight? x" =
    ["One two three", "Six seven eight"] := by decide

/-- One step of the paragraph accumulator of `extract_paragraphs`
(scoring.py 110-127); the state is (finished paragraphs, current lines). -/
def paraStep (st : List String × List String) (line : String) : List String × List String :=
  let stripped := pyStrip line
  if stripped = "" then
    if st.2 ≠ [] then
      let text := pyJoin " " st.2
      if pyStartsWith text "#" = false ∧ 5 < (pySplit text).length
      then (st.1 ++ [text], []) else (st.1, [])
    else st
  else if pyStartsWith stripped "#" = false ∧ pyStartsWith stripped "---" = false then
    (st.1, st.2 ++ [stripped])
  else st

/-- `extract_paragraphs` (scoring.py 110-127). -/
def extract_paragraphs (body : String) : List String :=
  let st := (pyLines body).foldl paraStep ([], [])
  if st.2 ≠ [] then
    let text := pyJoin " " st.2
    if pyStartsWith text "#" = false ∧ 5 < (pySplit text).length
    then st.1 ++ [text] else st.1
  else st.1

example : extract_paragraphs "# h\none two three four five six\nseven\n\nshort one\n\na b c d e f g" =
    ["one two three four five six seven", "a b c d e f g"] := by decide

/-- The match of `\[([^\]]+)\]\(([^\)]+)\)` anchored at the head of `cs`:
anchor text, URL, and total matched length. -/
def linkMatchAt (cs : List Char) : Option (String × String × ℕ) :=
  match cs with
  | '[' :: rest =>
    let anchor := rest.takeWhile (fun c => c ≠ ']')
    let rest1 := rest.drop anchor.length
    if anchor = [] then none else
    match rest1 with
    | ']' :: '(' :: rest2 =>
      let url := rest2.takeWhile (fun c => c ≠ ')')
      let rest3 := rest2.drop url.length
      if url = [] then none else
      match rest3 with
      | ')' :: _ => some (String.mk anchor, String.mk url, anchor.length + url.length + 4)
      | _ => none
    | _ => none
  | _ => none

/-- `re.findall(r'\[([^\]]+)\]\(([^\)]+)\)', body)`: leftmost, non-overlapping
markdown links as (anchor, url) pairs.  Fuel as in `stripURLsAux`. -/
def linkScanAux : ℕ → List Char → List (String × String)
  | 0, _ => []
  | _, [] => []
  | fuel + 1, c :: rest =>
    match linkMatchAt (c :: rest) with
    | some (a, u, n) => (a, u) :: linkScanAux fuel ((c :: rest).drop n)
    | none => linkScanAux fuel rest

def pyFindLinks (body : String) : List (String × String) :=
  linkScanAux body.data.length body.data

example : pyFindLinks "x [a](u) y [](v) [b [c](w)" = [("a", "u"), ("b [c", "w")] := by
  decide

/-! ## Data model (src/scoring.py lines 14-30) -/

structure ScoreDetail where
  category : String
  score : ℚ
  max_score : ℚ
  percentage : ℚ
  findings : List String
  suggestions : List String
deriving Repr, DecidableEq, Inhabited

structure ScoreReport where
  total_score : ℚ
  max_possible : ℚ
  percentage : ℚ
  details : List ScoreDetail
  iteration : ℕ
deriving Repr, DecidableEq

/-- The typed Document preamble: a mapping from string keys to string
values (the spec's Document Model; absent keys behave as `""`, matching
`frontmatter.get(key, "")` on the well-formed inputs). -/
def FM : Type := List (String × String)

/-- Python `frontmatter.get(key, "")`. -/
def fmGet (fm : FM) (key : String) : String :=
  match fm.find? (fun p => p.1 == key) with
  | some p => p.2
  | none => ""

/-- Python `key in frontmatter and frontmatter[key]` (truthy presence). -/
def fmHasTruthy (fm : FM) (key : String) : Bool :=
  match fm.find? (fun p => p.1 == key) with
  | some p => p.2 ≠ ""
  | none => false

/-- The oracle for `re.search(pattern, text)` on general regex patterns
(the `re` standard library is external to this repository; every literal
pattern use is implemented concretely instead). `search pat text` is true
iff the pattern matches somewhere in the text. -/
structure REnv where
  search : String → String → Bool

/-- A concrete oracle under which no general pattern matches — the truthful
oracle for the empty body, since none of the source's patterns can match an
empty string. -/
def envFalse : REnv := ⟨fun _ _ => false⟩

/-- Display helper for rational-valued findings. -/
def qRepr (q : ℚ) : String := s!"{q.num}/{q.den}"

/-! ## Pattern vocabularies (verbatim from src/scoring.py) -/

def local_signals : List String :=
  ["\\b\\d{5}\\b", "school district", "elementary|middle school|high school",
   "park\\b|trail\\b|recreation", "downtown\\s+\\w+", "library|community center",
   "interstate|highway|route\\s+\\d+"]

def stat_patterns : List String :=
  ["\\d+%", "\\$[\\d,]+", "median", "average", "increased|decreased|grew|declined",
   "year-over-year|month-over-month|yoy|mom", "according to|data shows|reports? (show|indicate)"]

def faq_pattern : String := "faq|frequently asked|common questions"

def comparison_patterns : List String :=
  ["pros? and cons?", "compared? to", "versus|vs\\.?",
   "top \\d+", "best \\d+", "advantages|disadvantages"]

def cta_patterns : List String :=
  ["contact\\s+(us|td realty)", "call\\s+(us|today|now)", "schedule\\s+(a|your)",
   "get\\s+(started|in touch|your free)", "reach\\s+out", "book\\s+(a|your)",
   "ready\\s+to\\s+(buy|sell|move|start|explore)", "(visit|check out)\\s+(our|tdrealtyohio)",
   "\\(614\\)", "free\\s+(consultation|estimate|home\\s+valuation)",
   "save\\s+thousands", "1%\\s+(listing|commission)"]

def meta_cta_patterns : List String :=
  ["learn", "discover", "find out", "explore", "contact", "call",
   "get started", "see", "browse", "search", "view", "check out"]

def generic_patterns : List String :=
  ["^this (article|post|blog|page)", "^read (about|more)", "^in this (article|post)"]

def service_keywords : List String :=
  ["commission", "listing", "buyer", "seller", "cashback", "inspection"]

/-! ## Scoring rules (src/scoring.py lines 130-635)

Each rule mirrors the source's accumulation of `points`, `findings` and
`suggestions`: the sequential `points += …` / `findings.append(…)` /
`suggestions.append(…)` of each check become a per-check triple, and the
final lists are the in-order concatenation of the per-check pieces. -/

/-- The banded word-count rule applied to an already-measured word count
(the body of `score_word_count`, scoring.py 133-154). -/
def score_word_count_at (wc : ℕ) : ScoreDetail :=
  let weight := word_count_weight
  let branch : ℚ × List String × List String :=
    if word_count_target_min ≤ wc ∧ wc ≤ word_count_target_max then
      (weight, [s!"✓ Within target range ({word_count_target_min}-{word_count_target_max})"], [])
    else if word_count_hard_min ≤ wc ∧ wc < word_count_target_min then
      let ratio : ℚ := ((wc : ℚ) - (word_count_hard_min : ℚ)) /
        ((word_count_target_min : ℚ) - (word_count_hard_min : ℚ))
      (weight * (0.5 + 0.5 * ratio), [],
       [s!"Add {word_count_target_min - wc} more words to reach minimum target of {word_count_target_min}"])
    else if word_count_target_max < wc ∧ wc ≤ word_count_hard_max then
      let ratio : ℚ := ((word_count_hard_max : ℚ) - (wc : ℚ)) /
        ((word_count_hard_max : ℚ) - (word_count_target_max : ℚ))
      (weight * (0.5 + 0.5 * ratio), [],
       [s!"Trim {wc - word_count_target_max} words — content over {word_count_target_max} words can hurt engagement"])
    else
      (weight * 0.2, [],
       [if wc < word_count_hard_min then
          s!"Significantly below minimum. Target at least {word_count_target_min} words"
        else s!"Significantly over maximum. Target under {word_count_target_max} words"])
  { category := "Word Count", score := branch.1, max_score := weight,
    percentage := branch.1 / weight * 100,
    findings := [s!"Word count: {wc}"] ++ branch.2.1, suggestions := branch.2.2 }

/-- `score_word_count` (scoring.py 130-154). -/
def score_word_count (body : String) : ScoreDetail :=
  score_word_count_at (count_words body)

/-- `score_keyword_optimization` (scoring.py 157-217). -/
def score_keyword_optimization (body : String) (frontmatter : FM)
    (primary_keyword : String) : ScoreDetail :=
  let weight := keyword_optimization_weight
  let per_check := weight / 5
  let kw_lower := pyLower primary_keyword
  let title := fmGet frontmatter "title"
  let c1 := pyContains (pyLower title) kw_lower
  let k1 : ℚ × List String × List String :=
    if c1 then (per_check, ["✓ Primary keyword in title"], [])
    else (0, ["✗ Primary keyword missing from title"],
          ["Include the primary keyword in the post title"])
  let words := pySplit body
  let first_100 := pyLower (pyJoin " " (words.take 100))
  let c2 := pyContains first_100 kw_lower
  let k2 : ℚ × List String × List String :=
    if c2 then (per_check, ["✓ Keyword in first 100 words"], [])
    else (0, ["✗ Keyword missing from first 100 words"],
          ["Mention the keyword within the first 100 words/opening paragraph"])
  let headings := extract_headings body
  let all_headings := pyLower (pyJoin " " (headings.h1 ++ headings.h2 ++ headings.h3 ++ headings.h4))
  let c3 := pyContains all_headings kw_lower
  let k3 : ℚ × List String × List String :=
    if c3 then (per_check, ["✓ Keyword appears in headings"], [])
    else (0, ["✗ Keyword missing from all headings"],
          ["Use the keyword (or close variant) in at least one H2 subheading"])
  let total_words := count_words body
  let k4 : ℚ × List String × List String :=
    if 0 < total_words then
      let kw_count := countOccs kw_lower (pyLower body)
      let kw_word_count := (pySplit kw_lower).length
      let density : ℚ := ((kw_count * kw_word_count : ℕ) : ℚ) / (total_words : ℚ)
      let df := s!"Keyword density: {qRepr density}"
      if target_density_min ≤ density ∧ density ≤ target_density_max then
        (per_check, [df, "✓ Keyword density in optimal range"], [])
      else if density < target_density_min then
        (per_check * 0.4, [df], ["Increase keyword usage — density is below target"])
      else
        (per_check * 0.3, [df], ["Reduce keyword stuffing — density exceeds ceiling"])
    else (0, [], [])
  let meta_desc := fmGet frontmatter "description"
  let c5 := pyContains (pyLower meta_desc) kw_lower
  let k5 : ℚ × List String × List String :=
    if c5 then (per_check, ["✓ Keyword in meta description"], [])
    else (0, ["✗ Keyword missing from meta description"],
          ["Include the keyword in the meta description"])
  let points := k1.1 + k2.1 + k3.1 + k4.1 + k5.1
  { category := "Keyword Optimization", score := points, max_score := weight,
    percentage := points / weight * 100,
    findings := k1.2.1 ++ k2.2.1 ++ k3.2.1 ++ k4.2.1 ++ k5.2.1,
    suggestions := k1.2.2 ++ k2.2.2 ++ k3.2.2 ++ k4.2.2 ++ k5.2.2 }

/-- The heading level assigned by the hierarchy walk of
`score_heading_structure` (scoring.py 264-275) to one stripped line. -/
def hierarchyLevel (stripped : String) : Option ℕ :=
  if pyStartsWith stripped "#### " then some 4
  else if pyStartsWith stripped "### " then some 3
  else if pyStartsWith stripped "## " then some 2
  else if pyStartsWith stripped "# " then some 1
  else none

/-- The hierarchy walk of `score_heading_structure` (scoring.py 262-278):
`hierarchy_ok` stays true unless some heading jumps more than one level
below a previous heading. -/
def hierarchyScan (body : String) : Bool :=
  ((pyLines body).foldl (fun (st : Bool × ℕ) line =>
    match hierarchyLevel (pyStrip line) with
    | none => st
    | some level =>
      (st.1 && !(decide (st.2 + 1 < level) && decide (0 < st.2)), level)) (true, 0)).1

/-- `score_heading_structure` (scoring.py 220-288). -/
def score_heading_structure (body : String) : ScoreDetail :=
  let weight := heading_structure_weight
  let per_check := weight / 4
  let headings := extract_headings body
  let h1_count := headings.h1.length
  let k1 : ℚ × List String × List String :=
    if h1_count ≤ 1 then (per_check, [s!"✓ H1 count: {h1_count} (appropriate)"], [])
    else (0, [s!"✗ Multiple H1 tags: {h1_count}"], [s!"Reduce to 1 H1 tag — found {h1_count}"])
  let h2_count := headings.h2.length
  let k2 : ℚ × List String × List String :=
    if target_h2_count_min ≤ h2_count ∧ h2_count ≤ target_h2_count_max then
      (per_check, [s!"H2 count: {h2_count}",
        s!"✓ H2 count in target range ({target_h2_count_min}-{target_h2_count_max})"], [])
    else if 0 < h2_count then
      (per_check * 0.5, [s!"H2 count: {h2_count}"],
       [if h2_count < target_h2_count_min then
          s!"Add more H2 sections — have {h2_count}, target {target_h2_count_min}+"
        else s!"Consolidate sections — {h2_count} H2s may fragment the content"])
    else (0, [s!"H2 count: {h2_count}"],
          ["Add H2 subheadings to break up content into scannable sections"])
  let h3_count := headings.h3.length
  let k3 : ℚ × List String × List String :=
    if target_h3_count_min ≤ h3_count then
      (per_check, [s!"H3 count: {h3_count}", "✓ Content has sub-section depth with H3s"], [])
    else if 0 < h3_count then
      (per_check * 0.6, [s!"H3 count: {h3_count}"],
       [s!"Add more H3 sub-sections for depth — have {h3_count}, target {target_h3_count_min}+"])
    else (0, [s!"H3 count: {h3_count}"],
          ["Add H3 sub-sections under H2s for better content hierarchy"])
  let k4 : ℚ × List String × List String :=
    if hierarchyScan body then (per_check, ["✓ Heading hierarchy is logical"], [])
    else (per_check * 0.3, [], ["Fix heading hierarchy — do not skip levels (e.g., H2 → H4)"])
  let points := k1.1 + k2.1 + k3.1 + k4.1
  { category := "Heading Structure", score := points, max_score := weight,
    percentage := points / weight * 100,
    findings := k1.2.1 ++ k2.2.1 ++ k3.2.1 ++ k4.2.1,
    suggestions := k1.2.2 ++ k2.2.2 ++ k3.2.2 ++ k4.2.2 }

/-- The per-paragraph sentence count of `score_readability`
(scoring.py 317-320). -/
def paraSentenceCount (p : String) : ℕ :=
  ((sentSplit p.data).filter (fun s => 2 < (pySplit (String.mk s)).length)).length

/-- `score_readability` (scoring.py 291-350).  The source computes
`std_dev = variance ** 0.5` and branches on `std_dev > 5` / `std_dev > 3`;
since the standard deviation is non-negative these comparisons are exactly
`variance > 25` / `variance > 9`, which is how the branch is expressed here
(ℚ has no square root). -/
def score_readability (body : String) : ScoreDetail :=
  let weight := readability_weight
  let per_check := weight / 3
  let sentences := extract_sentences body
  let paragraphs := extract_paragraphs body
  let k1 : ℚ × List String × List String :=
    if sentences ≠ [] then
      let lens := sentences.map (fun s => (pySplit s).length)
      let avg : ℚ := ((lens.sum : ℕ) : ℚ) / (sentences.length : ℚ)
      let f := s!"Average sentence length: {qRepr avg} words"
      if target_avg_sentence_length_min ≤ avg ∧ avg ≤ target_avg_sentence_length_max then
        (per_check, [f, "✓ Sentence length in optimal range"], [])
      else if avg < target_avg_sentence_length_min then
        (per_check * 0.6, [f], ["Sentences are too short — combine some for better flow and depth"])
      else (per_check * 0.5, [f], ["Average sentence too long. Break up complex sentences"])
    else (0, [], ["Could not parse sentences — check content formatting"])
  let k2 : ℚ × List String × List String :=
    if paragraphs ≠ [] then
      let counts := paragraphs.map paraSentenceCount
      let avg_para : ℚ := ((counts.sum : ℕ) : ℚ) / (paragraphs.length : ℚ)
      let f := s!"Average paragraph length: {qRepr avg_para} sentences"
      if target_avg_paragraph_sentences_min ≤ avg_para ∧
          avg_para ≤ target_avg_paragraph_sentences_max then
        (per_check, [f, "✓ Paragraph length in optimal range"], [])
      else
        (per_check * 0.5, [f],
         [if avg_para < target_avg_paragraph_sentences_min then
            "Paragraphs are too short — combine related sentences"
          else "Paragraphs are too long — break into smaller chunks for web readability"])
    else (0, [], [])
  let k3 : ℚ × List String × List String :=
    if 3 < sentences.length then
      let lens := sentences.map (fun s => (pySplit s).length)
      let mean_len : ℚ := ((lens.sum : ℕ) : ℚ) / (lens.length : ℚ)
      let variance : ℚ := (lens.map (fun x => ((x : ℚ) - mean_len) ^ 2)).sum / (lens.length : ℚ)
      let f := s!"Sentence length variety (variance): {qRepr variance}"
      if 25 < variance then (per_check, [f, "✓ Good sentence length variety"], [])
      else if 9 < variance then
        (per_check * 0.6, [f],
         ["Vary sentence lengths more — mix short punchy sentences with longer ones"])
      else (per_check * 0.3, [f],
            ["Sentences are too uniform in length — monotonous reading rhythm"])
    else (0, [], [])
  let points := k1.1 + k2.1 + k3.1
  { category := "Readability", score := points, max_score := weight,
    percentage := points / weight * 100,
    findings := k1.2.1 ++ k2.2.1 ++ k3.2.1,
    suggestions := k1.2.2 ++ k2.2.2 ++ k3.2.2 }

/-- `score_local_seo` (scoring.py 353-414). -/
def score_local_seo (body : String) (community : String) (env : REnv) : ScoreDetail :=
  let weight := local_seo_weight
  let per_check := weight / 4
  let body_lower := pyLower body
  let community_count := countOccs (pyLower community) body_lower
  let k1 : ℚ × List String × List String :=
    if community_mention_min ≤ community_count then
      (per_check, [s!"Community name {community} mentions: {community_count}",
                   "✓ Sufficient community mentions"], [])
    else if 0 < community_count then
      (per_check * 0.5, [s!"Community name {community} mentions: {community_count}"],
       [s!"Mention {community} more — found {community_count}, target {community_mention_min}+"])
    else (0, [s!"Community name {community} mentions: {community_count}"],
          [s!"{community} does not appear in body text — critical for local SEO"])
  let region_hits := region_terms.filter (fun t => pyContains body_lower (pyLower t))
  let region_join := pyJoin ", " (region_hits.take 5)
  let k2 : ℚ × List String × List String :=
    if 3 ≤ region_hits.length then
      (per_check, [s!"Regional terms found: {region_hits.length}/{region_terms.length}",
        s!"✓ Good regional context: {region_join}"], [])
    else if 1 ≤ region_hits.length then
      let missing_join := pyJoin ", " ((region_terms.filter (fun t => !(region_hits.contains t))).take 3)
      (per_check * 0.5, [s!"Regional terms found: {region_hits.length}/{region_terms.length}"],
       [s!"Add more regional context. Consider: {missing_join}"])
    else (0, [s!"Regional terms found: {region_hits.length}/{region_terms.length}"],
          ["No regional terms found — add Central Ohio, county, landmark references"])
  let other_communities := BUSINESS_communities.filter
    (fun c => pyLower c ≠ pyLower community)
  let nearby_mentions := other_communities.filter (fun c => pyContains body_lower (pyLower c))
  let nearby_join := pyJoin ", " (nearby_mentions.take 4)
  let others_join := pyJoin ", " (other_communities.take 3)
  let k3 : ℚ × List String × List String :=
    if 2 ≤ nearby_mentions.length then
      (per_check, [s!"Nearby community mentions: {nearby_mentions.length}",
        s!"✓ References other communities: {nearby_join}"], [])
    else if nearby_mentions.length = 1 then
      (per_check * 0.5, [s!"Nearby community mentions: {nearby_mentions.length}"],
       ["Reference more nearby communities for internal linking opportunities"])
    else (0, [s!"Nearby community mentions: {nearby_mentions.length}"],
          [s!"Mention nearby communities (e.g., {others_join}) for cross-linking"])
  let signal_count := (local_signals.filter (fun p => env.search p body_lower)).length
  let k4 : ℚ × List String × List String :=
    if 3 ≤ signal_count then
      (per_check, [s!"Local detail signals found: {signal_count}/{local_signals.length}",
                   "✓ Strong local detail signals"], [])
    else if 1 ≤ signal_count then
      (per_check * 0.5, [s!"Local detail signals found: {signal_count}/{local_signals.length}"],
       ["Add more hyperlocal details — school districts, parks, ZIP codes, landmarks"])
    else (0, [s!"Local detail signals found: {signal_count}/{local_signals.length}"],
          ["Content lacks local specificity — add school districts, parks, ZIP codes"])
  let points := k1.1 + k2.1 + k3.1 + k4.1
  { category := "Local SEO", score := points, max_score := weight,
    percentage := points / weight * 100,
    findings := k1.2.1 ++ k2.2.1 ++ k3.2.1 ++ k4.2.1,
    suggestions := k1.2.2 ++ k2.2.2 ++ k3.2.2 ++ k4.2.2 }

/-- `score_meta_description` (scoring.py 417-468). -/
def score_meta_description (frontmatter : FM) (primary_keyword : String)
    (env : REnv) : ScoreDetail :=
  let weight := meta_description_weight
  let per_check := weight / 4
  let desc := fmGet frontmatter "description"
  if desc = "" then
    { category := "Meta Description", score := 0, max_score := weight, percentage := 0,
      findings := ["✗ No meta description found"],
      suggestions := ["Add a meta description in frontmatter — critical for search results CTR"] }
  else
    let n := pyLen desc
    let k1 : ℚ × List String × List String :=
      if meta_target_length_min ≤ n ∧ n ≤ meta_target_length_max then
        (per_check, [s!"✓ Length in optimal range ({meta_target_length_min}-{meta_target_length_max})"], [])
      else if 100 ≤ n ∧ n < meta_target_length_min then
        (per_check * 0.6, [],
         [s!"Meta description slightly short ({n} chars). Target {meta_target_length_min}-{meta_target_length_max}"])
      else if meta_target_length_max < n ∧ n ≤ 200 then
        (per_check * 0.5, [], [s!"Meta description too long ({n} chars) — will be truncated"])
      else
        (0, [], [s!"Meta description length ({n}) far from optimal. Target {meta_target_length_min}-{meta_target_length_max}"])
    let k2 : ℚ × List String × List String :=
      if pyContains (pyLower desc) (pyLower primary_keyword) then
        (per_check, ["✓ Contains primary keyword"], [])
      else (0, [], ["Include the keyword in meta description"])
    let k3 : ℚ × List String × List String :=
      if meta_cta_patterns.any (fun p => env.search p (pyLower desc)) then
        (per_check, ["✓ Contains action-oriented language"], [])
      else (0, [], ["Add a call-to-action in meta description"])
    let is_generic := generic_patterns.any (fun p => env.search p (pyLower desc))
    let k4 : ℚ × List String × List String :=
      if is_generic = false ∧ 50 < n then
        (per_check, ["✓ Description appears unique and compelling"], [])
      else (per_check * 0.3, [], ["Make meta description more compelling — avoid generic openings"])
    let points := k1.1 + k2.1 + k3.1 + k4.1
    { category := "Meta Description", score := points, max_score := weight,
      percentage := points / weight * 100,
      findings := [s!"Meta description length: {n} chars"] ++ k1.2.1 ++ k2.2.1 ++ k3.2.1 ++ k4.2.1,
      suggestions := k1.2.2 ++ k2.2.2 ++ k3.2.2 ++ k4.2.2 }

/-- `score_internal_linking` (scoring.py 471-521). -/
def score_internal_linking (body : String) (community : String) : ScoreDetail :=
  let weight := internal_linking_weight
  let per_check := weight / 3
  let links := pyFindLinks body
  let internal_links := links.filter
    (fun l => pyContains l.2 "tdrealtyohio.com" || pyStartsWith l.2 "/")
  let external_links := links.filter (fun l => !(internal_links.contains l))
  let n := internal_links.length
  let k1 : ℚ × List String × List String :=
    if target_min_links ≤ n ∧ n ≤ target_max_links then
      (per_check, ["✓ Internal link count in optimal range"], [])
    else if 0 < n then
      (per_check * 0.5, [],
       [if n < target_min_links then
          s!"Add more internal links — have {n}, target {target_min_links}+"
        else s!"Too many internal links ({n}) — may appear spammy"])
    else (0, [], ["Add internal links to community and service pages on tdrealtyohio.com"])
  let has_service_link := internal_links.any (fun l =>
    service_keywords.any (fun kw => pyContains (pyLower l.1) kw || pyContains (pyLower l.2) kw))
  let k2 : ℚ × List String × List String :=
    if has_service_link then (per_check, ["✓ Links to service/value proposition pages"], [])
    else (0, [], ["Add link to TD Realty service pages (commission savings, free inspections, etc.)"])
  let other_communities := BUSINESS_communities.filter (fun c => pyLower c ≠ pyLower community)
  let community_links := internal_links.flatMap (fun l =>
    other_communities.filter (fun c =>
      pyContains (pyLower l.1) (pyLower c) || pyContains (pyLower l.2) (pyLower c)))
  let cross_join := pyJoin ", " community_links.eraseDups
  let others_join := pyJoin ", " (other_communities.take 3)
  let k3 : ℚ × List String × List String :=
    if community_links ≠ [] then
      (per_check, [s!"✓ Cross-community links: {cross_join}"], [])
    else (0, [], [s!"Add links to nearby community pages (e.g., {others_join})"])
  let points := k1.1 + k2.1 + k3.1
  { category := "Internal Linking", score := points, max_score := weight,
    percentage := points / weight * 100,
    findings := [s!"Internal links: {internal_links.length}",
                 s!"External links: {external_links.length}"] ++ k1.2.1 ++ k2.2.1 ++ k3.2.1,
    suggestions := k1.2.2 ++ k2.2.2 ++ k3.2.2 }

/-- `score_content_depth` (scoring.py 524-580). -/
def score_content_depth (body : String) (env : REnv) : ScoreDetail :=
  let weight := content_depth_weight
  let per_check := weight / 4
  let headings := extract_headings body
  let body_lower := pyLower body
  let section_count := headings.h2.length + headings.h3.length
  let k1 : ℚ × List String × List String :=
    if target_unique_sections ≤ section_count then
      (per_check, [s!"Total sections (H2+H3): {section_count}", "✓ Sufficient content sections"], [])
    else if 2 ≤ section_count then
      (per_check * 0.5, [s!"Total sections (H2+H3): {section_count}"],
       [s!"Add more content sections — have {section_count}, target {target_unique_sections}+"])
    else (0, [s!"Total sections (H2+H3): {section_count}"],
          ["Content needs more structured sections for depth"])
  let stat_count := (stat_patterns.filter (fun p => env.search p body_lower)).length
  let k2 : ℚ × List String × List String :=
    if 3 ≤ stat_count then
      (per_check, [s!"Statistical/data signals: {stat_count}", "✓ Content includes data and statistics"], [])
    else if 1 ≤ stat_count then
      (per_check * 0.5, [s!"Statistical/data signals: {stat_count}"],
       ["Add more market data, statistics, or percentage comparisons"])
    else (0, [s!"Statistical/data signals: {stat_count}"],
          ["Include concrete statistics — median home prices, market trends, percentages"])
  let question_count := countOccs "?" body
  let has_faq := env.search faq_pattern body_lower
  let k3 : ℚ × List String × List String :=
    if has_faq || decide (3 ≤ question_count) then
      (per_check, [s!"Questions in content: {question_count}", "✓ FAQ/question-based content present"], [])
    else if 1 ≤ question_count then
      (per_check * 0.5, [s!"Questions in content: {question_count}"],
       ["Add an FAQ section — great for featured snippets"])
    else (0, [s!"Questions in content: {question_count}"],
          ["Add FAQ section with common homebuyer/seller questions"])
  let k4 : ℚ × List String × List String :=
    if comparison_patterns.any (fun p => env.search p body_lower) then
      (per_check, ["✓ Comparative/evaluative content present"], [])
    else (per_check * 0.3, [],
          ["Add comparative elements — how this community compares to alternatives"])
  let points := k1.1 + k2.1 + k3.1 + k4.1
  { category := "Content Depth", score := points, max_score := weight,
    percentage := points / weight * 100,
    findings := k1.2.1 ++ k2.2.1 ++ k3.2.1 ++ k4.2.1,
    suggestions := k1.2.2 ++ k2.2.2 ++ k3.2.2 ++ k4.2.2 }

/-- `score_cta` (scoring.py 583-612). -/
def score_cta (body : String) (env : REnv) : ScoreDetail :=
  let weight := call_to_action_weight
  let cta_count := (cta_patterns.filter (fun p => env.search p (pyLower body))).length
  let branch : ℚ × List String × List String :=
    if target_cta_count_min ≤ cta_count ∧ cta_count ≤ target_cta_count_max then
      (weight, ["✓ CTA count in optimal range"], [])
    else if target_cta_count_max < cta_count then
      (weight * 0.7, [], ["Slightly too many CTAs — reduce to 2-3 natural touchpoints"])
    else if cta_count = 1 then
      (weight * 0.5, [], ["Add another CTA — one mid-content and one at the end"])
    else (0, [], ["Add calls to action — invite readers to contact TD Realty"])
  { category := "Call to Action", score := branch.1, max_score := weight,
    percentage := branch.1 / weight * 100,
    findings := [s!"CTAs detected: {cta_count}"] ++ branch.2.1, suggestions := branch.2.2 }

/-- `score_frontmatter` (scoring.py 615-635). -/
def score_frontmatter (frontmatter : FM) : ScoreDetail :=
  let weight := frontmatter_weight
  let present := required_fields.filter (fun f => fmHasTruthy frontmatter f)
  let missing := required_fields.filter (fun f => !(fmHasTruthy frontmatter f))
  let present_join := pyJoin ", " present
  let missing_join := pyJoin ", " missing
  let findings :=
    [s!"Frontmatter fields present: {present.length}/{required_fields.length}"] ++
    (if present ≠ [] then [s!"✓ Has: {present_join}"] else []) ++
    (if missing ≠ [] then [s!"✗ Missing: {missing_join}"] else [])
  let suggestions :=
    if missing ≠ [] then [s!"Add missing frontmatter fields: {missing_join}"] else []
  let ratio : ℚ :=
    if required_fields ≠ [] then (present.length : ℚ) / (required_fields.length : ℚ) else 0
  { category := "Frontmatter", score := weight * ratio, max_score := weight,
    percentage := ratio * 100, findings := findings, suggestions := suggestions }

/-- `score_post` (scoring.py 638-658), at the Document level: the external
preamble parser has already split the content into `frontmatter` and
`body`. -/
def score_post (frontmatter : FM) (body : String) (primary_keyword community : String)
    (iteration : ℕ) (env : REnv) : ScoreReport :=
  let details : List ScoreDetail :=
    [score_word_count body,
     score_keyword_optimization body frontmatter primary_keyword,
     score_heading_structure body,
     score_readability body,
     score_local_seo body community env,
     score_meta_description frontmatter primary_keyword env,
     score_internal_linking body community,
     score_content_depth body env,
     score_cta body env,
     score_frontmatter frontmatter]
  let total := (details.map (fun d => d.score)).sum
  let max_possible := (details.map (fun d => d.max_score)).sum
  { total_score := total, max_possible := max_possible,
    percentage := if 0 < max_possible then total / max_possible * 100 else 0,
    details := details, iteration := iteration }

/-! ## Optimization loop (src/optimizer.py lines 48-216)

The external generation/revision collaborator (`call_claude` +
`extract_markdown`) is modelled as data: the initial candidate and the
stream of revision candidates are inputs, each given together with the
total score that `score_post` assigns it (the loop logic reads nothing else
from the report).  One history entry records one scored iteration; the
candidate's content is carried along because the source saves each version
and finally writes the best one to `FINAL.md`. -/

structure HistEntry where
  iteration : ℕ
  content : String
  score : ℚ
deriving Repr, DecidableEq

structure RunResult where
  history : List HistEntry
  best_content : String
  best_score : ℚ
  best_iteration : ℕ
  plateau_count : ℕ
  content : String
  score : ℚ
deriving Repr, DecidableEq

/-- One iteration of the improvement loop (optimizer.py 157-172): append the
history record for iteration `i`, update the current candidate, and either
replace the best (on a strictly greater total score, resetting the plateau
counter) or increment the plateau counter. -/
def loopStep (st : RunResult) (i : ℕ) (c : String) (s : ℚ) : RunResult :=
  let st1 : RunResult :=
    { st with history := st.history ++ [⟨i, c, s⟩], content := c, score := s }
  if st.best_score < s then
    { st1 with best_content := c, best_score := s, best_iteration := i,
               plateau_count := 0 }
  else { st1 with plateau_count := st.plateau_count + 1 }

/-- The body of the improvement loop (optimizer.py 130-177): process the
iterations `i, i+1, …` with candidates `revs`, starting from state `st`;
stop early as soon as the plateau counter reaches `patience`
(optimizer.py 174-177). -/
def runLoop (patience : ℕ) : List (String × ℚ) → ℕ → RunResult → RunResult
  | [], _, st => st
  | (c, s) :: rest, i, st =>
    let st2 := loopStep st i c s
    if patience ≤ st2.plateau_count then st2
    else runLoop patience rest (i + 1) st2

/-- The run state after iteration 0 (optimizer.py 118-127). -/
def startState (init : String × ℚ) : RunResult :=
  { history := [⟨0, init.1, init.2⟩], best_content := init.1, best_score := init.2,
    best_iteration := 0, plateau_count := 0, content := init.1, score := init.2 }

/-- `run_optimization` (optimizer.py 48-216), reduced to its loop logic:
`iterations = None` defaults to `ITERATIONS["default_count"]` and is then
clamped to `ITERATIONS["max_count"]` (lines 67-69); the loop runs the
clamped number of revision iterations with the configured plateau patience,
and the finalized artifact (`FINAL.md`) is `best_content`. -/
def run_optimization (init : String × ℚ) (revs : List (String × ℚ))
    (iterations : Option ℕ) : RunResult :=
  let iters := min (iterations.getD ITERATIONS_default_count) ITERATIONS_max_count
  runLoop ITERATIONS_plateau_patience (revs.take iters) 1 (startState init)

/-- `"iterations_run": len(history) - 1` (optimizer.py 213). -/
def iterations_run (r : RunResult) : ℕ := r.history.length - 1

example :
    (run_optimization ("v0", 70)
      [("v1", 68), ("v2", 65), ("v3", 90), ("v4", 80), ("v5", 79)] (some 5)).best_score
      = 70 := by decide

/-! ## Dynamically-typed fragment (for the behaviour on non-string
preamble values)

`parse_frontmatter` hands `score_post` whatever `yaml.safe_load` produced.
The values of that mapping need not be strings (`title: 123` parses to an
integer), and the source immediately calls `str` methods on them.  `PyVal`
models the dynamic values, and the `Except` layer models Python exceptions. -/

inductive PyVal where
  | none
  | bool (b : Bool)
  | int (n : ℤ)
  | str (s : String)
  | list (xs : List PyVal)
deriving Repr

/-- `frontmatter.get(key, dflt)`: raises unless the receiver is a mapping.
A mapping is modelled as an association list of string keys. -/
def pyvalGet (fm : List (String × PyVal)) (key : String) (dflt : PyVal) : PyVal :=
  match fm.find? (fun p => p.1 == key) with
  | some p => p.2
  | Option.none => dflt

/-- Python `v.lower()`: an `AttributeError` unless `v` is a string. -/
def pyvalLower : PyVal → Except String String
  | .str s => .ok (pyLower s)
  | _ => .error "AttributeError: object has no attribute lower"

/-- Python truthiness of a value. -/
def pyvalTruthy : PyVal → Bool
  | .none => false
  | .bool b => b
  | .int n => n ≠ 0
  | .str s => s ≠ ""
  | .list xs => !xs.isEmpty

/-- Python `len(v)`: a `TypeError` unless `v` is sized. -/
def pyvalLen : PyVal → Except String ℕ
  | .str s => .ok (pyLen s)
  | .list xs => .ok xs.length
  | _ => .error "TypeError: object has no len"

/-- `score_keyword_optimization` (scoring.py 157-217) over a
dynamically-typed preamble mapping: identical to the typed rule except that
`title.lower()` and `meta_desc.lower()` go through `pyvalLower`, which is
where a non-string preamble value raises. -/
def score_keyword_optimization_dyn (body : String) (frontmatter : List (String × PyVal))
    (primary_keyword : String) : Except String ScoreDetail := do
  let title := pyvalGet frontmatter "title" (.str "")
  let title_lower ← pyvalLower title
  let meta_desc := pyvalGet frontmatter "description" (.str "")
  let typedFM : FM :=
    [("title", title_lower)] ++
    (match meta_desc with | .str s => [("description", s)] | _ => [])
  let _ ← pyvalLower meta_desc
  pure (score_keyword_optimization body typedFM primary_keyword)

/-- `score_meta_description` (scoring.py 417-468) over a dynamically-typed
preamble: `if not desc` tests truthiness (no exception), but `len(desc)`
and `desc.lower()` raise on numbers. -/
def score_meta_description_dyn (frontmatter : List (String × PyVal))
    (primary_keyword : String) (env : REnv) : Except String ScoreDetail := do
  let desc := pyvalGet frontmatter "description" (.str "")
  if pyvalTruthy desc = false then
    pure (score_meta_description [] primary_keyword env)
  else do
    let _ ← pyvalLen desc
    let s ← pyvalLower desc
    pure (score_meta_description [("description", s)] primary_keyword env)

/-- `score_frontmatter` (scoring.py 615-635) over a dynamically-typed
preamble: key membership and truthiness never raise on a mapping. -/
def score_frontmatter_dyn (frontmatter : List (String × PyVal)) : ScoreDetail :=
  let typedFM : FM := frontmatter.map (fun p =>
    (p.1, if pyvalTruthy p.2 then "x" else ""))
  score_frontmatter typedFM

/-- `score_post` (scoring.py 638-658) over a dynamically-typed preamble
mapping, evaluating the ten rules in source order inside the exception
monad.  Rules that never touch the preamble are total. -/
def score_post_dyn (frontmatter : List (String × PyVal)) (body : String)
    (primary_keyword community : String) (iteration : ℕ) (env : REnv) :
    Except String ScoreReport := do
  let d1 := score_word_count body
  let d2 ← score_keyword_optimization_dyn body frontmatter primary_keyword
  let d3 := score_heading_structure body
  let d4 := score_readability body
  let d5 := score_local_seo body community env
  let d6 ← score_meta_description_dyn frontmatter primary_keyword env
  let d7 := score_internal_linking body community
  let d8 := score_content_depth body env
  let d9 := score_cta body env
  let d10 := score_frontmatter_dyn frontmatter
  let details := [d1, d2, d3, d4, d5, d6, d7, d8, d9, d10]
  let total := (details.map (fun d => d.score)).sum
  let max_possible := (details.map (fun d => d.max_score)).sum
  pure { total_score := total, max_possible := max_possible,
         percentage := if 0 < max_possible then total / max_possible * 100 else 0,
         details := details, iteration := iteration }

/-! ## Lemmas about the optimization loop -/

theorem loopStep_history (st : RunResult) (i : ℕ) (c : String) (s : ℚ) :
    (loopStep st i c s).history = st.history ++ [⟨i, c, s⟩] := by
  simp only [loopStep]
  split <;> rfl

theorem loopStep_best_score (st : RunResult) (i : ℕ) (c : String) (s : ℚ) :
    (loopStep st i c s).best_score = if st.best_score < s then s else st.best_score := by
  simp only [loopStep]
  split <;> simp_all

theorem loopStep_best_content (st : RunResult) (i : ℕ) (c : String) (s : ℚ) :
    (loopStep st i c s).best_content =
      if st.best_score < s then c else st.best_content := by
  simp only [loopStep]
  split <;> simp_all

theorem loopStep_best_iteration (st : RunResult) (i : ℕ) (c : String) (s : ℚ) :
    (loopStep st i c s).best_iteration =
      if st.best_score < s then i else st.best_iteration := by
  simp only [loopStep]
  split <;> simp_all

theorem loopStep_plateau (st : RunResult) (i : ℕ) (c : String) (s : ℚ) :
    (loopStep st i c s).plateau_count =
      if st.best_score < s then 0 else st.plateau_count + 1 := by
  simp only [loopStep]
  split <;> simp_all

theorem runLoop_history_le (patience : ℕ) (l : List (String × ℚ)) :
    ∀ (i : ℕ) (st : RunResult),
      (runLoop patience l i st).history.length ≤ st.history.length + l.length := by
  induction l with
  | nil => intro i st; simp [runLoop]
  | cons a rest ih =>
    intro i st
    obtain ⟨c, s⟩ := a
    simp only [runLoop]
    split
    · simp [loopStep_history]
    · have h := ih (i + 1) (loopStep st i c s)
      rw [loopStep_history] at h
      simp at h ⊢
      omega

theorem runLoop_history_ge (patience : ℕ) (l : List (String × ℚ)) :
    ∀ (i : ℕ) (st : RunResult),
      st.history.length ≤ (runLoop patience l i st).history.length := by
  induction l with
  | nil => intro i st; simp [runLoop]
  | cons a rest ih =>
    intro i st
    obtain ⟨c, s⟩ := a
    simp only [runLoop]
    split
    · simp [loopStep_history]
    · have h := ih (i + 1) (loopStep st i c s)
      rw [loopStep_history] at h
      simp at h
      omega

theorem runLoop_plateau_le (patience : ℕ) (l : List (String × ℚ)) :
    ∀ (i : ℕ) (st : RunResult), st.plateau_count < patience →
      (runLoop patience l i st).plateau_count ≤ patience := by
  induction l with
  | nil => intro i st h; simpa [runLoop] using h.le
  | cons a rest ih =>
    intro i st h
    obtain ⟨c, s⟩ := a
    simp only [runLoop]
    split
    · rw [loopStep_plateau]
      split <;> omega
    · rename_i hbr
      rw [loopStep_plateau] at hbr
      apply ih
      rw [loopStep_plateau]
      by_cases hc : st.best_score < s <;> simp [hc] at hbr ⊢ <;> omega

theorem runLoop_full_run (patience : ℕ) (l : List (String × ℚ)) :
    ∀ (i : ℕ) (st : RunResult), st.plateau_count < patience →
      (runLoop patience l i st).plateau_count < patience →
      (runLoop patience l i st).history.length = st.history.length + l.length := by
  induction l with
  | nil => intro i st _ _; simp [runLoop]
  | cons a rest ih =>
    intro i st h hfin
    obtain ⟨c, s⟩ := a
    simp only [runLoop] at hfin ⊢
    split
    · rename_i hbr
      split at hfin
      · omega
      · simp_all
    · rename_i hbr
      have h2 : (loopStep st i c s).plateau_count < patience := by omega
      rw [if_neg hbr] at hfin
      have := ih (i + 1) (loopStep st i c s) h2 hfin
      rw [this, loopStep_history]
      simp
      omega

theorem runLoop_early_stop (patience : ℕ) (l : List (String × ℚ)) :
    ∀ (i : ℕ) (st : RunResult), st.plateau_count < patience →
      (runLoop patience l i st).history.length < st.history.length + l.length →
      (runLoop patience l i st).plateau_count = patience := by
  induction l with
  | nil => intro i st _ hlt; simp [runLoop] at hlt
  | cons a rest ih =>
    intro i st h hlt
    obtain ⟨c, s⟩ := a
    simp only [runLoop] at hlt ⊢
    split
    · rename_i hbr
      rw [loopStep_plateau] at hbr ⊢
      split at hbr
      · omega
      · rename_i hs
        rw [if_neg hs]
        omega
    · rename_i hbr
      have h2 : (loopStep st i c s).plateau_count < patience := by
        rw [loopStep_plateau] at hbr ⊢
        split at hbr <;> split <;> omega
      apply ih (i + 1) (loopStep st i c s) h2
      rw [if_neg hbr] at hlt
      rw [loopStep_history]
      simp at hlt ⊢
      omega

theorem runLoop_best_mem (patience : ℕ) (l : List (String × ℚ)) :
    ∀ (i : ℕ) (st : RunResult),
      (∃ e ∈ st.history, e.iteration = st.best_iteration ∧
        e.content = st.best_content ∧ e.score = st.best_score) →
      ∃ e ∈ (runLoop patience l i st).history,
        e.iteration = (runLoop patience l i st).best_iteration ∧
        e.content = (runLoop patience l i st).best_content ∧
        e.score = (runLoop patience l i st).best_score := by
  induction l with
  | nil => intro i st h; simpa [runLoop] using h
  | cons a rest ih =>
    intro i st h
    obtain ⟨c, s⟩ := a
    have hstep : ∃ e ∈ (loopStep st i c s).history,
        e.iteration = (loopStep st i c s).best_iteration ∧
        e.content = (loopStep st i c s).best_content ∧
        e.score = (loopStep st i c s).best_score := by
      rw [loopStep_history, loopStep_best_iteration, loopStep_best_content,
        loopStep_best_score]
      by_cases hc : st.best_score < s
      · exact ⟨⟨i, c, s⟩, by simp [hc]⟩
      · obtain ⟨e, hmem, he⟩ := h
        exact ⟨e, by simp [hc, List.mem_append, hmem, he]⟩
    simp only [runLoop]
    split
    · exact hstep
    · exact ih (i + 1) (loopStep st i c s) hstep

theorem runLoop_best_ub (patience : ℕ) (l : List (String × ℚ)) :
    ∀ (i : ℕ) (st : RunResult),
      (∀ e ∈ st.history, e.score ≤ st.best_score) →
      ∀ e ∈ (runLoop patience l i st).history,
        e.score ≤ (runLoop patience l i st).best_score := by
  induction l with
  | nil => intro i st h; simpa [runLoop] using h
  | cons a rest ih =>
    intro i st h
    obtain ⟨c, s⟩ := a
    have hstep : ∀ e ∈ (loopStep st i c s).history,
        e.score ≤ (loopStep st i c s).best_score := by
      rw [loopStep_history, loopStep_best_score]
      intro e he
      rcases List.mem_append.1 he with hm | hm
      · have := h e hm
        split <;> [linarith; exact this]
      · simp at hm
        subst hm
        simp only []
        split <;> linarith
    simp only [runLoop]
    split
    · exact hstep
    · exact ih (i + 1) (loopStep st i c s) hstep

/-! ## Claims about the optimization loop -/

/-- C1, counterexample: with the fixed total_score sequence
[70, 68, 65, 90, 80, 79] and the configured patience 2, the loop does NOT
stop after processing the 79-scoring iteration with best at index 3 — it
already stops after processing the 65-scoring iteration (index 2), because
68 and 65 are two consecutive non-improvements over best = 70, and the best
remains the 70-scoring iteration 0. -/
theorem C1_counterexample :
    iterations_run (run_optimization ("v0", 70)
      [("v1", 68), ("v2", 65), ("v3", 90), ("v4", 80), ("v5", 79)] (some 5)) = 2 ∧
    (run_optimization ("v0", 70)
      [("v1", 68), ("v2", 65), ("v3", 90), ("v4", 80), ("v5", 79)] (some 5)).best_score = 70 ∧
    ¬ ((run_optimization ("v0", 70)
      [("v1", 68), ("v2", 65), ("v3", 90), ("v4", 80), ("v5", 79)] (some 5)).best_iteration = 3) ∧
    ¬ (iterations_run (run_optimization ("v0", 70)
      [("v1", 68), ("v2", 65), ("v3", 90), ("v4", 80), ("v5", 79)] (some 5)) = 5) := by
  decide

/-- C1 (amended): the optimization loop stops after the configured iteration
cap is reached, or as soon as the plateau counter reaches the configured
patience threshold, whichever comes first: the number of revision iterations
never exceeds the cap (or the number of available candidates), the plateau
counter never exceeds patience, a run whose final plateau counter is below
patience processed every scheduled iteration, and a run that stopped early
did so with the plateau counter exactly at patience.  For the fixed
total_score sequence [70, 68, 65, 90, 80, 79] with patience = 2 the loop
stops after processing the 65-scoring iteration (index 2), with best
recorded as the 70-scoring iteration (index 0). -/
theorem C1_plateau_termination (patience : ℕ) (init : String × ℚ)
    (revs : List (String × ℚ)) (cap : ℕ) (hp : 1 ≤ patience) :
    iterations_run (runLoop patience (revs.take cap) 1 (startState init)) ≤
      min cap revs.length ∧
    (runLoop patience (revs.take cap) 1 (startState init)).plateau_count ≤ patience ∧
    ((runLoop patience (revs.take cap) 1 (startState init)).plateau_count < patience →
      iterations_run (runLoop patience (revs.take cap) 1 (startState init)) =
        min cap revs.length) ∧
    (iterations_run (runLoop patience (revs.take cap) 1 (startState init)) <
        min cap revs.length →
      (runLoop patience (revs.take cap) 1 (startState init)).plateau_count = patience) ∧
    iterations_run (run_optimization ("v0", 70)
      [("v1", 68), ("v2", 65), ("v3", 90), ("v4", 80), ("v5", 79)] (some 5)) = 2 ∧
    (run_optimization ("v0", 70)
      [("v1", 68), ("v2", 65), ("v3", 90), ("v4", 80), ("v5", 79)] (some 5)).best_iteration
      = 0 := by
  have h0 : (startState init).plateau_count < patience := by
    simp only [startState]
    omega
  have hlen1 : (startState init).history.length = 1 := rfl
  have htake : (revs.take cap).length = min cap revs.length := List.length_take _ _
  have hub := runLoop_history_le patience (revs.take cap) 1 (startState init)
  have hlb := runLoop_history_ge patience (revs.take cap) 1 (startState init)
  refine ⟨?_, runLoop_plateau_le _ _ _ _ h0, ?_, ?_, by decide, by decide⟩
  · unfold iterations_run
    omega
  · intro h
    have := runLoop_full_run patience (revs.take cap) 1 (startState init) h0 h
    unfold iterations_run
    omega
  · intro h
    apply runLoop_early_stop patience (revs.take cap) 1 (startState init) h0
    unfold iterations_run at h
    omega

theorem C1_plateau_termination_witness :
    iterations_run (runLoop 2 ([(("v1" : String), (68 : ℚ)), ("v2", 65)].take 5) 1
      (startState ("v0", 70))) ≤ min 5 2 :=
  (C1_plateau_termination 2 ("v0", 70) [("v1", 68), ("v2", 65)] 5 (by decide)).1

/-- C4: across iterations of one run, the tracked best (document, score,
iteration index) is replaced exactly when a new iteration's total_score is
strictly greater than the current best score — in which case the plateau
counter resets to 0, otherwise it increments by 1 — and on termination the
finalized artifact is the best-scoring history entry (an entry whose score
no history entry exceeds), not necessarily the last one produced (as the
concrete regressing run shows). -/
theorem C4_best_tracking (st : RunResult) (i : ℕ) (c : String) (s : ℚ)
    (init : String × ℚ) (revs : List (String × ℚ)) (iterations : Option ℕ) :
    ((loopStep st i c s).best_score = if st.best_score < s then s else st.best_score) ∧
    ((loopStep st i c s).best_content =
      if st.best_score < s then c else st.best_content) ∧
    ((loopStep st i c s).best_iteration =
      if st.best_score < s then i else st.best_iteration) ∧
    ((loopStep st i c s).plateau_count =
      if st.best_score < s then 0 else st.plateau_count + 1) ∧
    (∃ e ∈ (run_optimization init revs iterations).history,
        e.iteration = (run_optimization init revs iterations).best_iteration ∧
        e.content = (run_optimization init revs iterations).best_content ∧
        e.score = (run_optimization init revs iterations).best_score) ∧
    (∀ e ∈ (run_optimization init revs iterations).history,
        e.score ≤ (run_optimization init revs iterations).best_score) ∧
    ((run_optimization ("v0", 70) [("v1", 50), ("v2", 40)] (some 5)).best_content = "v0" ∧
      (run_optimization ("v0", 70) [("v1", 50), ("v2", 40)] (some 5)).content = "v2") := by
  refine ⟨loopStep_best_score st i c s, loopStep_best_content st i c s,
    loopStep_best_iteration st i c s, loopStep_plateau st i c s, ?_, ?_, by decide⟩
  · simp only [run_optimization]
    apply runLoop_best_mem
    exact ⟨⟨0, init.1, init.2⟩, by simp [startState]⟩
  · simp only [run_optimization]
    apply runLoop_best_ub
    intro e he
    simp only [startState, List.mem_singleton] at he
    subst he
    simp [startState]

theorem C4_best_tracking_witness :
    (loopStep (startState ("a", 1)) 1 "b" (2 : ℚ)).best_score =
      if (startState ("a", 1)).best_score < 2 then 2
      else (startState ("a", 1)).best_score :=
  (C4_best_tracking (startState ("a", 1)) 1 "b" 2 ("a", 1) [] (some 0)).1

/-- C10: the number of revision iterations actually attempted never exceeds
min(n, ITERATIONS["max_count"]) for a requested iteration count n; a request
of 20 with enough candidates runs exactly ITERATIONS["max_count"] = 15
revision iterations — clamped down silently rather than honored or
rejected. -/
theorem C10_iteration_clamp (init : String × ℚ) (revs : List (String × ℚ)) (n : ℕ) :
    iterations_run (run_optimization init revs (some n)) ≤ min n ITERATIONS_max_count ∧
    iterations_run (run_optimization ("v0", 0)
      ((List.range 20).map (fun k : ℕ => ("v", ((k + 1 : ℕ) : ℚ)))) (some 20)) =
      ITERATIONS_max_count := by
  constructor
  · simp only [run_optimization, Option.getD]
    have hub := runLoop_history_le ITERATIONS_plateau_patience
      (revs.take (min n ITERATIONS_max_count)) 1 (startState init)
    have htake : (revs.take (min n ITERATIONS_max_count)).length =
        min (min n ITERATIONS_max_count) revs.length := List.length_take _ _
    have hlen1 : (startState init).history.length = 1 := rfl
    unfold iterations_run
    omega
  · decide

/-! ## Claims about banded word-count scoring -/

theorem score_word_count_at_score (wc : ℕ) :
    (score_word_count_at wc).score =
      if word_count_target_min ≤ wc ∧ wc ≤ word_count_target_max then word_count_weight
      else if word_count_hard_min ≤ wc ∧ wc < word_count_target_min then
        word_count_weight * (0.5 + 0.5 * (((wc : ℚ) - (word_count_hard_min : ℚ)) /
          ((word_count_target_min : ℚ) - (word_count_hard_min : ℚ))))
      else if word_count_target_max < wc ∧ wc ≤ word_count_hard_max then
        word_count_weight * (0.5 + 0.5 * (((word_count_hard_max : ℚ) - (wc : ℚ)) /
          ((word_count_hard_max : ℚ) - (word_count_target_max : ℚ))))
      else word_count_weight * 0.2 := by
  simp only [score_word_count_at]
  split_ifs <;> rfl

theorem score_word_count_at_bounds (wc : ℕ) :
    0 ≤ (score_word_count_at wc).score ∧
      (score_word_count_at wc).score ≤ word_count_weight := by
  rw [score_word_count_at_score]
  simp only [word_count_weight, word_count_target_min, word_count_target_max,
    word_count_hard_min, word_count_hard_max]
  split_ifs with h1 h2 h3
  · norm_num
  · have ha : (800 : ℚ) ≤ (wc : ℚ) := by exact_mod_cast h2.1
    have hb : (wc : ℚ) < 1500 := by exact_mod_cast h2.2
    have hr0 : (0 : ℚ) ≤ ((wc : ℚ) - 800) / (1500 - 800) := by
      apply div_nonneg <;> linarith
    have hr1 : ((wc : ℚ) - 800) / (1500 - 800) < 1 := by
      rw [div_lt_one (by norm_num)]
      linarith
    constructor <;> nlinarith
  · have ha : (2500 : ℚ) < (wc : ℚ) := by exact_mod_cast h3.1
    have hb : (wc : ℚ) ≤ 3500 := by exact_mod_cast h3.2
    have hr0 : (0 : ℚ) ≤ ((3500 : ℚ) - (wc : ℚ)) / (3500 - 2500) := by
      apply div_nonneg <;> linarith
    have hr1 : ((3500 : ℚ) - (wc : ℚ)) / (3500 - 2500) < 1 := by
      rw [div_lt_one (by norm_num)]
      linarith
    constructor <;> nlinarith
  · norm_num

/-- C3: banded word-count scoring awards the full category weight inside the
target range [1500, 2500]; awards `weight * (0.5 + 0.5 * ratio)` in
[800, 1500) and (2500, 3500], where `ratio` is the fractional distance from
the hard bound toward the target bound, so partial credit always lies in
[0.5 * weight, weight); and awards exactly `weight * 0.2` outside
[800, 3500]. -/
theorem C3_banded_word_count (v : ℕ) :
    (word_count_target_min ≤ v ∧ v ≤ word_count_target_max →
      (score_word_count_at v).score = word_count_weight) ∧
    (word_count_hard_min ≤ v ∧ v < word_count_target_min →
      (score_word_count_at v).score = word_count_weight * (0.5 + 0.5 *
          (((v : ℚ) - (word_count_hard_min : ℚ)) /
            ((word_count_target_min : ℚ) - (word_count_hard_min : ℚ)))) ∧
      0.5 * word_count_weight ≤ (score_word_count_at v).score ∧
      (score_word_count_at v).score < word_count_weight) ∧
    (word_count_target_max < v ∧ v ≤ word_count_hard_max →
      (score_word_count_at v).score = word_count_weight * (0.5 + 0.5 *
          (((word_count_hard_max : ℚ) - (v : ℚ)) /
            ((word_count_hard_max : ℚ) - (word_count_target_max : ℚ)))) ∧
      0.5 * word_count_weight ≤ (score_word_count_at v).score ∧
      (score_word_count_at v).score < word_count_weight) ∧
    (v < word_count_hard_min ∨ word_count_hard_max < v →
      (score_word_count_at v).score = word_count_weight * 0.2) := by
  refine ⟨?_, ?_, ?_, ?_⟩
  · intro h
    rw [score_word_count_at_score, if_pos h]
  · intro h
    have hite : (score_word_count_at v).score = word_count_weight * (0.5 + 0.5 *
        (((v : ℚ) - (word_count_hard_min : ℚ)) /
          ((word_count_target_min : ℚ) - (word_count_hard_min : ℚ)))) := by
      rw [score_word_count_at_score, if_neg, if_pos h]
      simp only [word_count_target_min, word_count_target_max, word_count_hard_min] at h ⊢
      omega
    refine ⟨hite, ?_, ?_⟩ <;> rw [hite] <;>
      simp only [word_count_weight, word_count_target_min, word_count_hard_min] <;>
      [skip; skip] <;> first
    | (have ha : (800 : ℚ) ≤ (v : ℚ) := by
        exact_mod_cast (by simpa [word_count_hard_min] using h.1 : 800 ≤ v)
       have hb : (v : ℚ) < 1500 := by
        exact_mod_cast (by simpa [word_count_target_min] using h.2 : v < 1500)
       have hr0 : (0 : ℚ) ≤ ((v : ℚ) - 800) / (1500 - 800) := by
         apply div_nonneg <;> linarith
       have hr1 : ((v : ℚ) - 800) / (1500 - 800) < 1 := by
         rw [div_lt_one (by norm_num)]
         linarith
       push_cast
       nlinarith)
  · intro h
    have hite : (score_word_count_at v).score = word_count_weight * (0.5 + 0.5 *
        (((word_count_hard_max : ℚ) - (v : ℚ)) /
          ((word_count_hard_max : ℚ) - (word_count_target_max : ℚ)))) := by
      rw [score_word_count_at_score, if_neg, if_neg, if_pos h]
      · simp only [word_count_target_min, word_count_hard_min, word_count_target_max] at h ⊢
        omega
      · simp only [word_count_target_min, word_count_target_max] at h ⊢
        omega
    refine ⟨hite, ?_, ?_⟩ <;> rw [hite] <;>
      simp only [word_count_weight, word_count_target_max, word_count_hard_max] <;>
      first
    | (have ha : (2500 : ℚ) < (v : ℚ) := by
        exact_mod_cast (by simpa [word_count_target_max] using h.1 : 2500 < v)
       have hb : (v : ℚ) ≤ 3500 := by
        exact_mod_cast (by simpa [word_count_hard_max] using h.2 : v ≤ 3500)
       have hr0 : (0 : ℚ) ≤ ((3500 : ℚ) - (v : ℚ)) / (3500 - 2500) := by
         apply div_nonneg <;> linarith
       have hr1 : ((3500 : ℚ) - (v : ℚ)) / (3500 - 2500) < 1 := by
         rw [div_lt_one (by norm_num)]
         linarith
       push_cast
       nlinarith)
  · intro h
    rw [score_word_count_at_score, if_neg, if_neg, if_neg]
    all_goals
      simp only [word_count_target_min, word_count_target_max, word_count_hard_min,
        word_count_hard_max] at h ⊢
    all_goals omega

theorem C3_banded_word_count_witness :
    (score_word_count_at 2000).score = word_count_weight ∧
    (score_word_count_at 1150).score = word_count_weight * (0.5 + 0.5 *
      (((1150 : ℕ) : ℚ) - (word_count_hard_min : ℚ)) /
        ((word_count_target_min : ℚ) - (word_count_hard_min : ℚ))) ∧
    (score_word_count_at 100).score = word_count_weight * 0.2 := by
  refine ⟨(C3_banded_word_count 2000).1 (by decide), ?_, (C3_banded_word_count 100).2.2.2 (by decide)⟩
  have h := ((C3_banded_word_count 1150).2.1 (by decide)).1
  rw [h]
  ring

theorem wcs_floor_eq (v : ℕ) (h : v < 800 ∨ 3500 < v) :
    (score_word_count_at v).score = 2 := by
  rw [score_word_count_at_score]
  simp only [word_count_weight, word_count_target_min, word_count_target_max,
    word_count_hard_min, word_count_hard_max]
  rw [if_neg (by omega), if_neg (by omega), if_neg (by omega)]
  norm_num

theorem wcs_low_eq (v : ℕ) (h8 : 800 ≤ v) (h15 : v < 1500) :
    (score_word_count_at v).score = 10 * (0.5 + 0.5 * (((v : ℚ) - 800) / 700)) := by
  rw [score_word_count_at_score]
  simp only [word_count_weight, word_count_target_min, word_count_target_max,
    word_count_hard_min, word_count_hard_max]
  rw [if_neg (by omega), if_pos ⟨h8, h15⟩]
  norm_num

theorem wcs_high_eq (v : ℕ) (h25 : 2500 < v) (h35 : v ≤ 3500) :
    (score_word_count_at v).score = 10 * (0.5 + 0.5 * ((3500 - (v : ℚ)) / 1000)) := by
  rw [score_word_count_at_score]
  simp only [word_count_weight, word_count_target_min, word_count_target_max,
    word_count_hard_min, word_count_hard_max]
  rw [if_neg (by omega), if_neg (by omega), if_pos ⟨h25, h35⟩]
  norm_num

theorem wcs_low_bounds (v : ℕ) (h8 : 800 ≤ v) (h15 : v < 1500) :
    5 ≤ (score_word_count_at v).score ∧ (score_word_count_at v).score < 10 := by
  rw [wcs_low_eq v h8 h15]
  have ha : (800 : ℚ) ≤ (v : ℚ) := by exact_mod_cast h8
  have hb : (v : ℚ) < 1500 := by exact_mod_cast h15
  have hr0 : (0 : ℚ) ≤ ((v : ℚ) - 800) / 700 := by apply div_nonneg <;> linarith
  have hr1 : ((v : ℚ) - 800) / 700 < 1 := by
    rw [div_lt_one (by norm_num)]
    linarith
  constructor <;> nlinarith

theorem wcs_high_bounds (v : ℕ) (h25 : 2500 < v) (h35 : v ≤ 3500) :
    5 ≤ (score_word_count_at v).score ∧ (score_word_count_at v).score < 10 := by
  rw [wcs_high_eq v h25 h35]
  have ha : (2500 : ℚ) < (v : ℚ) := by exact_mod_cast h25
  have hb : (v : ℚ) ≤ 3500 := by exact_mod_cast h35
  have hr0 : (0 : ℚ) ≤ (3500 - (v : ℚ)) / 1000 := by apply div_nonneg <;> linarith
  have hr1 : (3500 - (v : ℚ)) / 1000 < 1 := by
    rw [div_lt_one (by norm_num)]
    linarith
  constructor <;> nlinarith

/-- C7: banded word-count scoring is monotonic on each side of the target
range: of two measured values below the target range, the larger (closer)
one never scores strictly lower; of two measured values above the target
range, the smaller (closer) one never scores strictly lower. -/
theorem C7_band_monotonic (v1 v2 : ℕ) :
    (v2 < v1 → v1 < word_count_target_min →
      (score_word_count_at v2).score ≤ (score_word_count_at v1).score) ∧
    (word_count_target_max < v1 → v1 < v2 →
      (score_word_count_at v2).score ≤ (score_word_count_at v1).score) := by
  constructor
  · intro h12 h1
    simp only [word_count_target_min] at h1
    rcases Nat.lt_or_ge v1 800 with hv1 | hv1
    · rw [wcs_floor_eq v1 (Or.inl hv1), wcs_floor_eq v2 (Or.inl (by omega))]
    · rcases Nat.lt_or_ge v2 800 with hv2 | hv2
      · rw [wcs_floor_eq v2 (Or.inl hv2)]
        have hb := wcs_low_bounds v1 hv1 h1
        linarith [hb.1]
      · rw [wcs_low_eq v1 hv1 h1, wcs_low_eq v2 hv2 (by omega)]
        have hc : (v2 : ℚ) ≤ (v1 : ℚ) := by exact_mod_cast h12.le
        have hr : ((v2 : ℚ) - 800) / 700 ≤ ((v1 : ℚ) - 800) / 700 := by
          apply div_le_div_of_nonneg_right ?_ (by norm_num)
          · linarith
        nlinarith
  · intro h1 h12
    simp only [word_count_target_max] at h1
    rcases Nat.lt_or_ge 3500 v1 with hv1 | hv1
    · rw [wcs_floor_eq v1 (Or.inr hv1), wcs_floor_eq v2 (Or.inr (by omega))]
    · rcases Nat.lt_or_ge 3500 v2 with hv2 | hv2
      · rw [wcs_floor_eq v2 (Or.inr hv2)]
        have hb := wcs_high_bounds v1 h1 hv1
        linarith [hb.1]
      · rw [wcs_high_eq v1 h1 hv1, wcs_high_eq v2 (by omega) hv2]
        have hc : (v1 : ℚ) ≤ (v2 : ℚ) := by exact_mod_cast h12.le
        have hr : ((3500 : ℚ) - (v2 : ℚ)) / 1000 ≤ ((3500 : ℚ) - (v1 : ℚ)) / 1000 := by
          apply div_le_div_of_nonneg_right ?_ (by norm_num)
          · linarith
        nlinarith

theorem C7_band_monotonic_witness :
    (score_word_count_at 900).score ≤ (score_word_count_at 1400).score ∧
    (score_word_count_at 3400).score ≤ (score_word_count_at 2600).score :=
  ⟨(C7_band_monotonic 1400 900).1 (by decide) (by decide),
   (C7_band_monotonic 2600 3400).2 (by decide) (by decide)⟩

/-! ## Per-rule invariants: 0 ≤ score ≤ max_score, percentage consistency -/

theorem score_word_count_inv (body : String) :
    0 ≤ (score_word_count body).score ∧
    (score_word_count body).score ≤ (score_word_count body).max_score ∧
    (score_word_count body).percentage =
      (score_word_count body).score / (score_word_count body).max_score * 100 := by
  have h := score_word_count_at_bounds (count_words body)
  exact ⟨h.1, h.2, rfl⟩

theorem score_keyword_optimization_inv (body : String) (fm : FM) (kw : String) :
    0 ≤ (score_keyword_optimization body fm kw).score ∧
    (score_keyword_optimization body fm kw).score ≤
      (score_keyword_optimization body fm kw).max_score ∧
    (score_keyword_optimization body fm kw).percentage =
      (score_keyword_optimization body fm kw).score /
        (score_keyword_optimization body fm kw).max_score * 100 := by
  refine ⟨?_, ?_, rfl⟩ <;>
  · simp only [score_keyword_optimization, keyword_optimization_weight]
    split_ifs <;> norm_num

theorem score_heading_structure_inv (body : String) :
    0 ≤ (score_heading_structure body).score ∧
    (score_heading_structure body).score ≤ (score_heading_structure body).max_score ∧
    (score_heading_structure body).percentage =
      (score_heading_structure body).score /
        (score_heading_structure body).max_score * 100 := by
  refine ⟨?_, ?_, rfl⟩ <;>
  · simp only [score_heading_structure, heading_structure_weight]
    split_ifs <;> norm_num

theorem score_readability_inv (body : String) :
    0 ≤ (score_readability body).score ∧
    (score_readability body).score ≤ (score_readability body).max_score ∧
    (score_readability body).percentage =
      (score_readability body).score / (score_readability body).max_score * 100 := by
  refine ⟨?_, ?_, rfl⟩ <;>
  · simp only [score_readability, readability_weight]
    split_ifs <;> norm_num

theorem score_local_seo_inv (body community : String) (env : REnv) :
    0 ≤ (score_local_seo body community env).score ∧
    (score_local_seo body community env).score ≤
      (score_local_seo body community env).max_score ∧
    (score_local_seo body community env).percentage =
      (score_local_seo body community env).score /
        (score_local_seo body community env).max_score * 100 := by
  refine ⟨?_, ?_, rfl⟩ <;>
  · simp only [score_local_seo, local_seo_weight]
    split_ifs <;> norm_num

theorem score_meta_description_inv (fm : FM) (kw : String) (env : REnv) :
    0 ≤ (score_meta_description fm kw env).score ∧
    (score_meta_description fm kw env).score ≤
      (score_meta_description fm kw env).max_score ∧
    (score_meta_description fm kw env).percentage =
      (score_meta_description fm kw env).score /
        (score_meta_description fm kw env).max_score * 100 := by
  refine ⟨?_, ?_, ?_⟩ <;>
  · simp only [score_meta_description, meta_description_weight]
    split_ifs <;> norm_num

theorem score_internal_linking_inv (body community : String) :
    0 ≤ (score_internal_linking body community).score ∧
    (score_internal_linking body community).score ≤
      (score_internal_linking body community).max_score ∧
    (score_internal_linking body community).percentage =
      (score_internal_linking body community).score /
        (score_internal_linking body community).max_score * 100 := by
  refine ⟨?_, ?_, rfl⟩ <;>
  · simp only [score_internal_linking, internal_linking_weight]
    split_ifs <;> norm_num

theorem score_content_depth_inv (body : String) (env : REnv) :
    0 ≤ (score_content_depth body env).score ∧
    (score_content_depth body env).score ≤ (score_content_depth body env).max_score ∧
    (score_content_depth body env).percentage =
      (score_content_depth body env).score /
        (score_content_depth body env).max_score * 100 := by
  refine ⟨?_, ?_, rfl⟩ <;>
  · simp only [score_content_depth, content_depth_weight]
    split_ifs <;> norm_num

theorem score_cta_inv (body : String) (env : REnv) :
    0 ≤ (score_cta body env).score ∧
    (score_cta body env).score ≤ (score_cta body env).max_score ∧
    (score_cta body env).percentage =
      (score_cta body env).score / (score_cta body env).max_score * 100 := by
  refine ⟨?_, ?_, rfl⟩ <;>
  · simp only [score_cta, call_to_action_weight]
    split_ifs <;> norm_num

theorem score_frontmatter_inv (fm : FM) :
    0 ≤ (score_frontmatter fm).score ∧
    (score_frontmatter fm).score ≤ (score_frontmatter fm).max_score ∧
    (score_frontmatter fm).percentage =
      (score_frontmatter fm).score / (score_frontmatter fm).max_score * 100 := by
  have hlen : (required_fields.filter (fun f => fmHasTruthy fm f)).length ≤ 7 := by
    calc (required_fields.filter (fun f => fmHasTruthy fm f)).length
        ≤ required_fields.length := List.length_filter_le _ _
      _ = 7 := by decide
  have hq : ((required_fields.filter (fun f => fmHasTruthy fm f)).length : ℚ) ≤ 7 := by
    exact_mod_cast hlen
  have hq0 : (0 : ℚ) ≤ ((required_fields.filter (fun f => fmHasTruthy fm f)).length : ℚ) := by
    positivity
  refine ⟨?_, ?_, ?_⟩ <;>
  · simp only [score_frontmatter, frontmatter_weight]
    rw [if_pos (by decide)]
    simp only [show (required_fields.length : ℚ) = 7 from by decide]
    first
    | linarith

/-- C2: every category result produced by any scoring rule on any input
document (including an empty body) satisfies 0 ≤ score ≤ max_score, and its
percentage equals score / max_score * 100 exactly (in ℚ, division by zero
yields 0, so the divide-by-zero guard is subsumed by the equation). -/
theorem C2_category_invariants (fm : FM) (body kw comm : String) (it : ℕ) (env : REnv) :
    ∀ d ∈ (score_post fm body kw comm it env).details,
      0 ≤ d.score ∧ d.score ≤ d.max_score ∧
        d.percentage = d.score / d.max_score * 100 := by
  intro d hd
  simp only [score_post, List.mem_cons, List.not_mem_nil, or_false] at hd
  rcases hd with rfl | rfl | rfl | rfl | rfl | rfl | rfl | rfl | rfl | rfl
  · exact score_word_count_inv body
  · exact score_keyword_optimization_inv body fm kw
  · exact score_heading_structure_inv body
  · exact score_readability_inv body
  · exact score_local_seo_inv body comm env
  · exact score_meta_description_inv fm kw env
  · exact score_internal_linking_inv body comm
  · exact score_content_depth_inv body env
  · exact score_cta_inv body env
  · exact score_frontmatter_inv fm

theorem C2_category_invariants_witness :
    0 ≤ (score_word_count "").score ∧
    (score_word_count "").score ≤ (score_word_count "").max_score ∧
    (score_word_count "").percentage =
      (score_word_count "").score / (score_word_count "").max_score * 100 :=
  C2_category_invariants [] "" "k" "Powell" 0 envFalse (score_word_count "")
    (by simp only [score_post]; exact List.mem_cons_self _ _)

/-- C6: whenever the preamble's description is absent or empty, the Meta
Description category result in the report has score exactly 0, percentage 0,
exactly one finding and exactly one suggestion, regardless of any other
document content. -/
theorem C6_meta_description_missing (fm : FM) (body kw comm : String) (it : ℕ)
    (env : REnv) (h : fmGet fm "description" = "") :
    ((score_post fm body kw comm it env).details.getD 5 default).score = 0 ∧
    ((score_post fm body kw comm it env).details.getD 5 default).percentage = 0 ∧
    ((score_post fm body kw comm it env).details.getD 5 default).findings.length = 1 ∧
    ((score_post fm body kw comm it env).details.getD 5 default).suggestions.length = 1 := by
  have hd : (score_post fm body kw comm it env).details.getD 5 default =
      score_meta_description fm kw env := by
    simp only [score_post]
    rfl
  rw [hd]
  simp only [score_meta_description, h]
  norm_num

theorem C6_meta_description_missing_witness :
    ((score_post [] "" "k" "Powell" 0 envFalse).details.getD 5 default).score = 0 ∧
    ((score_post [] "" "k" "Powell" 0 envFalse).details.getD 5 default).percentage = 0 ∧
    ((score_post [] "" "k" "Powell" 0 envFalse).details.getD 5 default).findings.length = 1 ∧
    ((score_post [] "" "k" "Powell" 0 envFalse).details.getD 5 default).suggestions.length = 1 :=
  C6_meta_description_missing [] "" "k" "Powell" 0 envFalse rfl

/-! ## Findings lemmas (spec §7: non-empty findings) -/

theorem score_word_count_findings (body : String) :
    (score_word_count body).findings ≠ [] := by
  simp only [score_word_count, score_word_count_at]
  split_ifs <;> simp

theorem score_keyword_optimization_findings (body : String) (fm : FM) (kw : String) :
    (score_keyword_optimization body fm kw).findings ≠ [] := by
  simp only [score_keyword_optimization]
  split_ifs <;> simp

theorem score_heading_structure_findings (body : String) :
    (score_heading_structure body).findings ≠ [] := by
  simp only [score_heading_structure]
  split_ifs <;> simp

theorem score_local_seo_findings (body community : String) (env : REnv) :
    (score_local_seo body community env).findings ≠ [] := by
  simp only [score_local_seo]
  split_ifs <;> simp

theorem score_meta_description_findings (fm : FM) (kw : String) (env : REnv) :
    (score_meta_description fm kw env).findings ≠ [] := by
  simp only [score_meta_description]
  split_ifs <;> simp

theorem score_internal_linking_findings (body community : String) :
    (score_internal_linking body community).findings ≠ [] := by
  simp only [score_internal_linking]
  split_ifs <;> simp

theorem score_content_depth_findings (body : String) (env : REnv) :
    (score_content_depth body env).findings ≠ [] := by
  simp only [score_content_depth]
  split_ifs <;> simp

theorem score_cta_findings (body : String) (env : REnv) :
    (score_cta body env).findings ≠ [] := by
  simp only [score_cta]
  split_ifs <;> simp

theorem score_frontmatter_findings (fm : FM) :
    (score_frontmatter fm).findings ≠ [] := by
  simp only [score_frontmatter]
  split_ifs <;> simp

theorem score_readability_findings_iff (body : String) :
    (score_readability body).findings = [] ↔
      extract_sentences body = [] ∧ extract_paragraphs body = [] := by
  simp only [score_readability]
  by_cases hs : extract_sentences body = [] <;>
    by_cases hp : extract_paragraphs body = [] <;>
      simp only [hs, hp, ne_eq, not_true_eq_false, not_false_eq_true, if_true, if_false,
        List.length_nil] <;>
      split_ifs <;> (try simp [hs, hp]) <;> omega

/-- C8, counterexample: on the empty body the Readability rule emits no
findings at all (it reports only a suggestion), so the report for the empty
document contains a category result with an empty findings list. -/
theorem C8_counterexample :
    (score_readability "").findings = [] ∧
    ¬ (∀ d ∈ (score_post [] "" "k" "Powell" 0 envFalse).details, d.findings ≠ []) := by
  constructor
  · decide
  · intro hall
    have hmem : score_readability "" ∈ (score_post [] "" "k" "Powell" 0 envFalse).details := by
      simp only [score_post]
      exact List.mem_cons_of_mem _ (List.mem_cons_of_mem _
        (List.mem_cons_of_mem _ (List.mem_cons_self _ _)))
    exact hall (score_readability "") hmem (by decide)

/-- C8 (amended): for every input document, each of the ten category results
in the returned report has a non-empty findings list, with one exception:
the Readability result has an empty findings list exactly when no sentences
and no paragraphs can be extracted from the body (e.g. on an empty body). -/
theorem C8_findings_nonempty (fm : FM) (body kw comm : String) (it : ℕ) (env : REnv) :
    (∀ d ∈ (score_post fm body kw comm it env).details,
      d.category ≠ "Readability" → d.findings ≠ []) ∧
    ((score_readability body).findings = [] ↔
      extract_sentences body = [] ∧ extract_paragraphs body = []) := by
  refine ⟨?_, score_readability_findings_iff body⟩
  intro d hd hcat
  simp only [score_post, List.mem_cons, List.not_mem_nil, or_false] at hd
  rcases hd with rfl | rfl | rfl | rfl | rfl | rfl | rfl | rfl | rfl | rfl
  · exact score_word_count_findings body
  · exact score_keyword_optimization_findings body fm kw
  · exact score_heading_structure_findings body
  · exact absurd rfl hcat
  · exact score_local_seo_findings body comm env
  · exact score_meta_description_findings fm kw env
  · exact score_internal_linking_findings body comm
  · exact score_content_depth_findings body env
  · exact score_cta_findings body env
  · exact score_frontmatter_findings fm

theorem C8_findings_nonempty_witness :
    (score_word_count "").findings ≠ [] :=
  (C8_findings_nonempty [] "" "k" "Powell" 0 envFalse).1 (score_word_count "")
    (by simp only [score_post]; exact List.mem_cons_self _ _) (by decide)

/-- Mutual exclusivity of the heading markers: a stripped line starts with at
most one of the four `#`-marker prefixes. -/
theorem hash_marker_excl (s : String) :
    (pyStartsWith s "#### " = true →
      pyStartsWith s "### " = false ∧ pyStartsWith s "## " = false ∧
        pyStartsWith s "# " = false) ∧
    (pyStartsWith s "### " = true →
      pyStartsWith s "## " = false ∧ pyStartsWith s "# " = false) ∧
    (pyStartsWith s "## " = true → pyStartsWith s "# " = false) := by
  have e4 : ("#### ").data = ['#', '#', '#', '#', ' '] := rfl
  have e3 : ("### ").data = ['#', '#', '#', ' '] := rfl
  have e2 : ("## ").data = ['#', '#', ' '] := rfl
  have e1 : ("# ").data = ['#', ' '] := rfl
  rcases hl : s.data with _ | ⟨c1, _ | ⟨c2, _ | ⟨c3, _ | ⟨c4, l5⟩⟩⟩⟩ <;>
    simp_all [pyStartsWith, List.isPrefixOf] <;>
    aesop

/-- C9, counterexample: the body line `"  ## Hello"` has no heading marker at
the start of the line (its first character is a space, and the line does not
start with a `#`), yet the heading inventory counts it as an H2 heading. -/
theorem C9_counterexample :
    ("  ## Hello").data.head? = some ' ' ∧
    pyStartsWith "  ## Hello" "#" = false ∧
    (extract_headings "  ## Hello").h2 = ["Hello"] := by
  decide

/-- C9 (amended): a line of the body is counted as a heading exactly when its
whitespace-stripped form begins with a heading marker (one to four `#`
characters followed by a space); the heading's level equals the marker count,
and the recorded heading text is the stripped remainder after the marker.
Leading whitespace before the marker does not disqualify a line. -/
theorem C9_heading_classification (hs : Headings) (line : String) :
    ((headingUpdate hs line).h1 = hs.h1 ++
      (if pyStartsWith (pyStrip line) "# " then [pyStrip (pyDropChars (pyStrip line) 2)]
       else [])) ∧
    ((headingUpdate hs line).h2 = hs.h2 ++
      (if pyStartsWith (pyStrip line) "## " then [pyStrip (pyDropChars (pyStrip line) 3)]
       else [])) ∧
    ((headingUpdate hs line).h3 = hs.h3 ++
      (if pyStartsWith (pyStrip line) "### " then [pyStrip (pyDropChars (pyStrip line) 4)]
       else [])) ∧
    ((headingUpdate hs line).h4 = hs.h4 ++
      (if pyStartsWith (pyStrip line) "#### " then [pyStrip (pyDropChars (pyStrip line) 5)]
       else [])) := by
  obtain ⟨hx4, hx3, hx2⟩ := hash_marker_excl (pyStrip line)
  by_cases h4 : pyStartsWith (pyStrip line) "#### " = true
  · obtain ⟨e3, e2, e1⟩ := hx4 h4
    simp [headingUpdate, h4, e3, e2, e1]
  · by_cases h3 : pyStartsWith (pyStrip line) "### " = true
    · obtain ⟨e2, e1⟩ := hx3 h3
      simp [headingUpdate, h4, h3, e2, e1]
    · by_cases h2 : pyStartsWith (pyStrip line) "## " = true
      · have e1 := hx2 h2
        simp [headingUpdate, h4, h3, h2, e1]
      · by_cases h1 : pyStartsWith (pyStrip line) "# " = true <;>
          simp [headingUpdate, h4, h3, h2, h1]

/-- C5: scoring does NOT tolerate every malformed input — a preamble whose
`title` field parses to a non-string value (Python input
`"---\ntitle: 123\n---\nHello world from Powell"`, whose YAML preamble is the
mapping `{title: 123}`) makes `score_keyword_optimization` call
`title.lower()` on an integer, so `score_post` raises an `AttributeError`
instead of returning a Report: the dynamically-typed embedding of the same
pipeline evaluates to an exception on that input. -/
theorem C5_malformed_preamble_raises :
    score_post_dyn [("title", PyVal.int 123)] "Hello world from Powell" "k" "Powell" 0
      envFalse = Except.error "AttributeError: object has no attribute lower" := by
  rfl
